import Mathlib

/-!
# Verification of the medical chatbot client (`src/components/ChatInterface.tsx`)

Shallow embedding of the chat component's logic:

* `generateMedicalResponse` — the pure keyword-based response selector
  (lines 135–155 of `ChatInterface.tsx`), with JavaScript's
  `String.prototype.includes` embedded as `strIncludes` and
  `String.prototype.toLowerCase` as `jsToLowerCase`.
* A store model (`Store`) for the remote `chat_sessions` / `messages`
  tables as the component consumes them: inserts stamp rows with a
  logical clock, list queries filter by owner / session and sort by the
  timestamp column, matching the `.order(...)` parameters in the source
  and the row-level-security ownership policies shipped with the repo.
* The component operations `loadSessions`, `loadMessages`,
  `createNewSession` and `sendMessage` as state transformers over
  `ComponentState`, with store failures injected through explicit flags
  and `console.error` calls modelled as an emitted `LogEntry` list.
-/

/-- JavaScript's `startsWith` on character lists: `listHasPrefix s p` is
`true` iff `p` is a prefix of `s`. -/
def listHasPrefix : List Char → List Char → Bool
  | _, [] => true
  | [], _ :: _ => false
  | c :: cs, p :: ps => c == p && listHasPrefix cs ps

/-- Contiguous-substring test on character lists: `listHasSubstr p s` is
`true` iff `p` occurs contiguously in `s`. -/
def listHasSubstr (p : List Char) : List Char → Bool
  | [] => p.isEmpty
  | c :: cs => listHasPrefix (c :: cs) p || listHasSubstr p cs

/-- JavaScript's `String.prototype.includes`: substring containment. -/
def strIncludes (s pat : String) : Bool :=
  listHasSubstr pat.toList s.toList

/-- JavaScript's `String.prototype.trim`: strip whitespace from both
ends. -/
def jsTrim (s : String) : String :=
  ⟨((s.data.dropWhile Char.isWhitespace).reverse.dropWhile Char.isWhitespace).reverse⟩

/-- JavaScript's `String.prototype.toLowerCase`: lower-case every
character (agrees with JavaScript on the ASCII keywords the selector
tests). -/
def jsToLowerCase (s : String) : String :=
  ⟨s.data.map Char.toLower⟩

/-- Canned advice returned when the lower-cased query contains "headache"
(`ChatInterface.tsx` line 139). -/
def headacheAdvice : String :=
  "For headaches, try resting in a quiet, dark room. Stay hydrated and consider over-the-counter pain relievers like acetaminophen or ibuprofen. If headaches persist or worsen, consult a healthcare provider."

/-- Canned advice returned when the lower-cased query contains "fever"
(`ChatInterface.tsx` line 143; the source file's mojibake "Â°" is kept
verbatim). -/
def feverAdvice : String :=
  "For fever, stay hydrated, rest, and monitor your temperature. Over-the-counter fever reducers like acetaminophen or ibuprofen can help. Seek medical attention if fever exceeds 103Â°F (39.4Â°C) or lasts more than 3 days."

/-- Canned advice returned when the lower-cased query contains "cold" or
"flu" (`ChatInterface.tsx` line 147). -/
def coldFluAdvice : String :=
  "For cold or flu symptoms, get plenty of rest, stay hydrated, and use over-the-counter medications for symptom relief. Wash hands frequently and avoid close contact with others. Consult a doctor if symptoms worsen or persist beyond 10 days."

/-- Canned advice returned when the lower-cased query contains "cough"
(`ChatInterface.tsx` line 151). -/
def coughAdvice : String :=
  "For a cough, stay hydrated, use honey (for ages 1+), and consider cough suppressants. Avoid irritants like smoke. If cough persists beyond 3 weeks, produces blood, or is accompanied by fever, see a healthcare provider."

/-- Generic disclaimer returned when no keyword matches
(`ChatInterface.tsx` line 154). -/
def genericDisclaimer : String :=
  "I understand you have a health concern. While I can provide general information, I recommend consulting with a qualified healthcare professional for personalized medical advice and proper diagnosis. Always seek immediate medical attention for emergencies."

/-- The response selector, translated line-for-line from
`generateMedicalResponse` (`ChatInterface.tsx` lines 135–155): lower-case
the query, then test substring containment in priority order headache,
fever, cold-or-flu, cough, falling back to the generic disclaimer. -/
def generateMedicalResponse (query : String) : String :=
  let lowerQuery := jsToLowerCase query
  if strIncludes lowerQuery "headache" then headacheAdvice
  else if strIncludes lowerQuery "fever" then feverAdvice
  else if strIncludes lowerQuery "cold" || strIncludes lowerQuery "flu" then coldFluAdvice
  else if strIncludes lowerQuery "cough" then coughAdvice
  else genericDisclaimer

/-- The spec's description of the selector (§4.3), stated independently of
the source: a fixed ordered table of (predicate, response) rules, scanned
for the first match on the lower-cased input, with the disclaimer as
fallback. Used only to compare against `generateMedicalResponse`. -/
def responseRules : List ((String → Bool) × String) :=
  [ (fun q => strIncludes q "headache", headacheAdvice),
    (fun q => strIncludes q "fever", feverAdvice),
    (fun q => strIncludes q "cold" || strIncludes q "flu", coldFluAdvice),
    (fun q => strIncludes q "cough", coughAdvice) ]

/-- First-match rule-table selector following the spec's words (§4.3). -/
def selectorSpec (query : String) : String :=
  match responseRules.find? (fun rule => rule.1 (jsToLowerCase query)) with
  | some rule => rule.2
  | none => genericDisclaimer

/-- C1: any query whose lower-cased form contains "headache" gets the
headache advice, regardless of other keywords present. -/
theorem headache_has_first_priority (query : String)
    (h : strIncludes (jsToLowerCase query) "headache" = true) :
    generateMedicalResponse query = headacheAdvice := by
  simp [generateMedicalResponse, h]

/-- Witness for C1 at the concrete input "I have a Headache and fever",
which contains both "headache" (capitalised) and "fever". -/
theorem headache_has_first_priority_witness :
    generateMedicalResponse "I have a Headache and fever" = headacheAdvice :=
  headache_has_first_priority "I have a Headache and fever" (by decide)

/-- C2: the selector is total and deterministic, always returns one of the
five fixed strings, and agrees everywhere with the spec's first-match
rule-table formulation. -/
theorem generateMedicalResponse_refines_spec (query : String) :
    generateMedicalResponse query = selectorSpec query ∧
      generateMedicalResponse query ∈
        [headacheAdvice, feverAdvice, coldFluAdvice, coughAdvice, genericDisclaimer] := by
  constructor
  · by_cases h1 : strIncludes (jsToLowerCase query) "headache" = true
    · simp [generateMedicalResponse, selectorSpec, responseRules, h1]
    · by_cases h2 : strIncludes (jsToLowerCase query) "fever" = true
      · simp [generateMedicalResponse, selectorSpec, responseRules, h1, h2]
      · by_cases h3 : (strIncludes (jsToLowerCase query) "cold" || strIncludes (jsToLowerCase query) "flu") = true
        · simp [generateMedicalResponse, selectorSpec, responseRules, h1, h2, h3]
        · by_cases h4 : strIncludes (jsToLowerCase query) "cough" = true
          · simp only [Bool.or_eq_true, not_or] at h3
            simp [generateMedicalResponse, selectorSpec, responseRules, h1, h2, h3.1, h3.2, h4]
          · simp only [Bool.or_eq_true, not_or] at h3
            simp [generateMedicalResponse, selectorSpec, responseRules, h1, h2, h3.1, h3.2, h4]
  · unfold generateMedicalResponse
    dsimp only
    split_ifs <;> simp

/-! ## Store model

The remote tables (`chat_sessions`, `messages`) as the component
consumes them through the store client.  Inserts stamp rows with a
logical clock `now` (the store's `DEFAULT now()` / the component's
`new Date().toISOString()`); list queries apply the ownership filter of
the repo's row-level-security policies and the `.order(...)` clause of
the corresponding `select` in `ChatInterface.tsx`. -/

/-- Message origin tag, `role ∈ {user, assistant}` (schema `CHECK`). -/
inductive Role where
  | user
  | assistant
deriving DecidableEq

/-- A row of `chat_sessions`. -/
structure SessionRow where
  id : Nat
  user_id : Nat
  title : String
  created_at : Nat
  updated_at : Nat
deriving DecidableEq

/-- A row of `messages`. -/
structure MessageRow where
  id : Nat
  session_id : Nat
  role : Role
  content : String
  created_at : Nat
deriving DecidableEq

/-- The remote store: both tables, a fresh-id counter and a logical
clock used to stamp timestamps. -/
structure Store where
  sessions : List SessionRow
  messages : List MessageRow
  nextId : Nat
  now : Nat
deriving DecidableEq

/-- Ordering used by `loadSessions`'s query:
`order('updated_at', { ascending: false })` — newest first. -/
def sessionMoreRecent (a b : SessionRow) : Prop :=
  b.updated_at ≤ a.updated_at

instance : DecidableRel sessionMoreRecent := fun a b =>
  inferInstanceAs (Decidable (b.updated_at ≤ a.updated_at))

instance : IsTotal SessionRow sessionMoreRecent :=
  ⟨fun a b => Nat.le_total b.updated_at a.updated_at⟩

instance : IsTrans SessionRow sessionMoreRecent :=
  ⟨fun _ _ _ hab hbc => Nat.le_trans hbc hab⟩

/-- Ordering used by `loadMessages`'s query:
`order('created_at', { ascending: true })` — oldest first. -/
def msgEarlier (a b : MessageRow) : Prop :=
  a.created_at ≤ b.created_at

instance : DecidableRel msgEarlier := fun a b =>
  inferInstanceAs (Decidable (a.created_at ≤ b.created_at))

instance : IsTotal MessageRow msgEarlier :=
  ⟨fun a b => Nat.le_total a.created_at b.created_at⟩

instance : IsTrans MessageRow msgEarlier :=
  ⟨fun _ _ _ => Nat.le_trans⟩

/-- Query `listSessions(user)`: the sessions owned by `uid` (row-level
security restricts `select('*')` to the requesting user's rows), newest
`updated_at` first. -/
def Store.listSessions (st : Store) (uid : Nat) : List SessionRow :=
  List.insertionSort sessionMoreRecent
    (st.sessions.filter (fun s => s.user_id == uid))

/-- Query `listMessages(sessionId)`: the messages of that session, ascending
by creation time. -/
def Store.listMessages (st : Store) (sid : Nat) : List MessageRow :=
  List.insertionSort msgEarlier
    (st.messages.filter (fun m => m.session_id == sid))

/-- The query `listMessages` as a store operation: a pure read, returning the
result together with the (unchanged) store. -/
def Store.listMessagesOp (st : Store) (sid : Nat) : List MessageRow × Store :=
  (st.listMessages sid, st)

/-- Operation `createSession(user)`: insert a `chat_sessions` row with the default
title, stamped with the current clock. -/
def Store.insertSession (st : Store) (uid : Nat) : SessionRow × Store :=
  let row : SessionRow :=
    { id := st.nextId, user_id := uid, title := "New Chat",
      created_at := st.now, updated_at := st.now }
  (row, { st with sessions := row :: st.sessions,
                  nextId := st.nextId + 1, now := st.now + 1 })

/-- Operation `appendMessage(sessionId, role, content)`: insert a `messages` row
stamped with the current clock. -/
def Store.insertMessage (st : Store) (sid : Nat) (role : Role) (content : String) :
    MessageRow × Store :=
  let row : MessageRow :=
    { id := st.nextId, session_id := sid, role := role,
      content := content, created_at := st.now }
  (row, { st with messages := row :: st.messages,
                  nextId := st.nextId + 1, now := st.now + 1 })

/-- Operation `touchSession(sessionId)`: `update({ updated_at: new Date(...) })`
on the matching row. -/
def Store.touchSession (st : Store) (sid : Nat) : Store :=
  { st with
    sessions := st.sessions.map
      (fun s => if s.id == sid then { s with updated_at := st.now } else s),
    now := st.now + 1 }

/-- Clock well-formedness: every stored message was stamped strictly
before the store's current clock.  Holds for the empty store and is
preserved by every store operation. -/
def Store.wf (st : Store) : Prop :=
  ∀ m ∈ st.messages, m.created_at < st.now

instance (st : Store) : Decidable st.wf :=
  inferInstanceAs (Decidable (∀ m ∈ st.messages, m.created_at < st.now))

/-! ## Component model

The in-memory view state of `ChatInterface` and its operations.  Store
failures are injected through explicit Boolean flags (a rejected call in
the model leaves the store untouched and yields the error branch of the
source); every `console.error` call site is modelled as an appended
`LogEntry`; each attempted store call is recorded in a `StoreCall`
trace. -/

/-- The component's `useState` cells (`ChatInterface.tsx` lines 11–15). -/
structure ComponentState where
  sessions : List SessionRow
  currentSession : Option SessionRow
  messages : List MessageRow
  input : String
  loading : Bool
deriving DecidableEq

/-- One `console.error` call site. -/
inductive LogEntry where
  | loadSessionsFailed
  | loadMessagesFailed
  | createSessionFailed
  | saveUserMessageFailed
  | saveAssistantMessageFailed
deriving DecidableEq

/-- One attempted store call (recorded whether or not it succeeds). -/
inductive StoreCall where
  | listSessionsCall
  | listMessagesCall (sid : Nat)
  | insertSessionCall (uid : Nat)
  | insertMessageCall (sid : Nat) (role : Role) (content : String)
  | touchSessionCall (sid : Nat)
deriving DecidableEq

/-- Which store calls of a run the remote store rejects. -/
structure FailSpec where
  failUserInsert : Bool
  failReload1 : Bool
  failAssistantInsert : Bool
  failReload2 : Bool
  failTouch : Bool
deriving DecidableEq

/-- Every call succeeds. -/
def noFail : FailSpec :=
  { failUserInsert := false, failReload1 := false,
    failAssistantInsert := false, failReload2 := false, failTouch := false }

/-- Only the assistant-message insert is rejected. -/
def assistantInsertFail : FailSpec :=
  { noFail with failAssistantInsert := true }

/-- Only the user-message insert is rejected. -/
def userInsertFail : FailSpec :=
  { noFail with failUserInsert := true }

/-- Only the session touch is rejected. -/
def touchFail : FailSpec :=
  { noFail with failTouch := true }

/-- Outcome of a `sendMessage` run: final view state, final store, the
trace of attempted store calls, and the emitted error log. -/
structure SendResult where
  state : ComponentState
  store : Store
  trace : List StoreCall
  log : List LogEntry
deriving DecidableEq

/-- Component operation `loadSessions` (`ChatInterface.tsx` lines 32–47): on error, log and
return; on success set the session list and auto-select the head when
none is selected. -/
def loadSessions (fail : Bool) (uid : Nat) (st : ComponentState) (store : Store) :
    ComponentState × List LogEntry :=
  if fail then (st, [LogEntry.loadSessionsFailed])
  else
    let data := store.listSessions uid
    match data, st.currentSession with
    | d0 :: _, none =>
        ({ st with sessions := data, currentSession := some d0 }, [])
    | _, _ => ({ st with sessions := data }, [])

/-- Component operation `loadMessages` (`ChatInterface.tsx` lines 49–62): on error, log and
return; on success replace the message list with the ordered query
result. -/
def loadMessages (fail : Bool) (sid : Nat) (st : ComponentState) (store : Store) :
    ComponentState × List LogEntry :=
  if fail then (st, [LogEntry.loadMessagesFailed])
  else ({ st with messages := store.listMessages sid }, [])

/-- Component operation `createNewSession` (`ChatInterface.tsx` lines 64–86): on error, log
and return; on success prepend the new session, select it and clear the
messages. -/
def createNewSession (fail : Bool) (uid : Nat) (st : ComponentState) (store : Store) :
    ComponentState × Store × List LogEntry :=
  if fail then (st, store, [LogEntry.createSessionFailed])
  else
    let (row, store1) := store.insertSession uid
    ({ st with sessions := row :: st.sessions,
               currentSession := some row, messages := [] },
     store1, [])

/-- Component operation `sendMessage` (`ChatInterface.tsx` lines 88–133).  Guard: bail out
when the trimmed input is empty, no session is selected, or a send is in
flight.  Otherwise: clear the input, set `loading`, insert the `user`
message (on rejection: log, reset `loading`, return), reload messages,
compute the reply, insert the `assistant` message (on rejection: log and
continue), reload messages, touch the session (result ignored), reset
`loading`. -/
def sendMessage (fs : FailSpec) (st : ComponentState) (store : Store) : SendResult :=
  if jsTrim st.input = "" then ⟨st, store, [], []⟩
  else
    match st.currentSession with
    | none => ⟨st, store, [], []⟩
    | some sess =>
      if st.loading then ⟨st, store, [], []⟩
      else
        let userMessage := jsTrim st.input
        let st1 : ComponentState := { st with input := "", loading := true }
        if fs.failUserInsert then
          ⟨{ st1 with loading := false }, store,
            [StoreCall.insertMessageCall sess.id Role.user userMessage],
            [LogEntry.saveUserMessageFailed]⟩
        else
          let store1 := (store.insertMessage sess.id Role.user userMessage).2
          let (st2, log1) := loadMessages fs.failReload1 sess.id st1 store1
          let assistantResponse := generateMedicalResponse userMessage
          if fs.failAssistantInsert then
            let (st3, log2) := loadMessages fs.failReload2 sess.id st2 store1
            let store2 := if fs.failTouch then store1 else store1.touchSession sess.id
            ⟨{ st3 with loading := false }, store2,
              [StoreCall.insertMessageCall sess.id Role.user userMessage,
               StoreCall.listMessagesCall sess.id,
               StoreCall.insertMessageCall sess.id Role.assistant assistantResponse,
               StoreCall.listMessagesCall sess.id,
               StoreCall.touchSessionCall sess.id],
              log1 ++ [LogEntry.saveAssistantMessageFailed] ++ log2⟩
          else
            let store2 := (store1.insertMessage sess.id Role.assistant assistantResponse).2
            let (st3, log2) := loadMessages fs.failReload2 sess.id st2 store2
            let store3 := if fs.failTouch then store2 else store2.touchSession sess.id
            ⟨{ st3 with loading := false }, store3,
              [StoreCall.insertMessageCall sess.id Role.user userMessage,
               StoreCall.listMessagesCall sess.id,
               StoreCall.insertMessageCall sess.id Role.assistant assistantResponse,
               StoreCall.listMessagesCall sess.id,
               StoreCall.touchSessionCall sess.id],
              log1 ++ log2⟩

/-! ## Helper lemmas on the ordered queries -/

/-- Inserting an element that every list element strictly precedes lands
at the end. -/
theorem orderedInsert_eq_append {α : Type} (r : α → α → Prop) [DecidableRel r] (x : α) :
    ∀ l : List α, (∀ b ∈ l, ¬ r x b) → List.orderedInsert r x l = l ++ [x]
  | [], _ => rfl
  | b :: l, h => by
    rw [List.orderedInsert, if_neg (h b (List.mem_cons_self b l)),
      orderedInsert_eq_append r x l (fun c hc => h c (List.mem_cons_of_mem b hc))]
    rfl

/-- Appending one message newer than the whole table: the ordered query
for its session grows by that message at the end. -/
theorem sortMessages_cons_one (old : List MessageRow) (sid : Nat) (u : MessageRow)
    (hu : u.session_id = sid)
    (hw : ∀ m ∈ old, m.created_at < u.created_at) :
    List.insertionSort msgEarlier ((u :: old).filter (fun m => m.session_id == sid))
      = List.insertionSort msgEarlier (old.filter (fun m => m.session_id == sid)) ++ [u] := by
  rw [List.filter_cons_of_pos (by simp [hu]), List.insertionSort]
  apply orderedInsert_eq_append
  intro b hb
  have hbold : b ∈ old := List.mem_of_mem_filter ((List.mem_insertionSort msgEarlier).1 hb)
  exact Nat.not_le.2 (hw b hbold)

/-- Appending two messages newer than the whole table (the second newer
than the first): the ordered query grows by the pair, in order. -/
theorem sortMessages_cons_two (old : List MessageRow) (sid : Nat) (u a : MessageRow)
    (hu : u.session_id = sid) (ha : a.session_id = sid)
    (hua : u.created_at < a.created_at)
    (hw : ∀ m ∈ old, m.created_at < u.created_at) :
    List.insertionSort msgEarlier ((a :: u :: old).filter (fun m => m.session_id == sid))
      = List.insertionSort msgEarlier (old.filter (fun m => m.session_id == sid)) ++ [u, a] := by
  rw [List.filter_cons_of_pos (by simp [ha]), List.insertionSort,
    sortMessages_cons_one old sid u hu hw, orderedInsert_eq_append]
  · rw [List.append_assoc]
    rfl
  · intro b hb
    rcases List.mem_append.1 hb with hb | hb
    · have hbold : b ∈ old :=
        List.mem_of_mem_filter ((List.mem_insertionSort msgEarlier).1 hb)
      exact Nat.not_le.2 (Nat.lt_trans (hw b hbold) hua)
    · have : b = u := List.mem_singleton.1 hb
      exact this ▸ Nat.not_le.2 hua

/-! ## Sample data for witnesses -/

/-- A concrete session row. -/
def sampleSession : SessionRow :=
  { id := 0, user_id := 0, title := "New Chat", created_at := 1, updated_at := 1 }

/-- A concrete store holding `sampleSession` and no messages. -/
def sampleStore : Store :=
  { sessions := [sampleSession], messages := [], nextId := 1, now := 2 }

/-- A concrete idle component state with `sampleSession` selected and a
pending input. -/
def sampleState : ComponentState :=
  { sessions := [sampleSession], currentSession := some sampleSession,
    messages := [], input := "I have a headache", loading := false }

/-! ## Reduction lemmas for `sendMessage` runs -/

/-- Fully evaluated form of a `sendMessage` run in which every store
call succeeds. -/
theorem sendMessage_success_red (st : ComponentState) (store : Store) (sess : SessionRow)
    (hsess : st.currentSession = some sess) (hidle : st.loading = false)
    (hinput : ¬ jsTrim st.input = "") :
    sendMessage noFail st store =
      ⟨{ st with
          input := "",
          loading := false,
          messages := Store.listMessages
            { store with
                messages :=
                  { id := store.nextId + 1, session_id := sess.id, role := Role.assistant,
                    content := generateMedicalResponse (jsTrim st.input),
                    created_at := store.now + 1 }
                  :: { id := store.nextId, session_id := sess.id, role := Role.user,
                       content := jsTrim st.input, created_at := store.now }
                  :: store.messages,
                nextId := store.nextId + 2,
                now := store.now + 2 } sess.id },
       { store with
          messages :=
            { id := store.nextId + 1, session_id := sess.id, role := Role.assistant,
              content := generateMedicalResponse (jsTrim st.input),
              created_at := store.now + 1 }
            :: { id := store.nextId, session_id := sess.id, role := Role.user,
                 content := jsTrim st.input, created_at := store.now }
            :: store.messages,
          sessions :=
            store.sessions.map
              (fun s => if s.id == sess.id then { s with updated_at := store.now + 2 } else s),
          nextId := store.nextId + 2,
          now := store.now + 3 },
       [StoreCall.insertMessageCall sess.id Role.user (jsTrim st.input),
        StoreCall.listMessagesCall sess.id,
        StoreCall.insertMessageCall sess.id Role.assistant (generateMedicalResponse (jsTrim st.input)),
        StoreCall.listMessagesCall sess.id,
        StoreCall.touchSessionCall sess.id],
       []⟩ := by
  unfold sendMessage
  rw [if_neg hinput, hsess]
  simp [hidle, noFail, Store.insertMessage, loadMessages, Store.touchSession]

/-- The ordered message query after the success path's two inserts:
the previous ordered list with the user/assistant pair appended. -/
theorem listMessages_after_pair (store : Store) (sess : SessionRow)
    (content reply : String) (hwf : store.wf) :
    Store.listMessages
        { store with
            messages :=
              { id := store.nextId + 1, session_id := sess.id, role := Role.assistant,
                content := reply, created_at := store.now + 1 }
              :: { id := store.nextId, session_id := sess.id, role := Role.user,
                   content := content, created_at := store.now }
              :: store.messages,
            nextId := store.nextId + 2,
            now := store.now + 2 } sess.id =
      store.listMessages sess.id ++
        [{ id := store.nextId, session_id := sess.id, role := Role.user,
           content := content, created_at := store.now },
         { id := store.nextId + 1, session_id := sess.id, role := Role.assistant,
           content := reply, created_at := store.now + 1 }] := by
  unfold Store.listMessages
  exact sortMessages_cons_two store.messages sess.id _ _ rfl rfl
    (Nat.lt_succ_self store.now) hwf

/-- C3: a send with a selected session, idle state, non-blank input and
a fully cooperating store appends exactly one `user` row carrying the
trimmed input, then one `assistant` row carrying the selector's reply,
touches the session's `updated_at`, clears the input, returns to idle,
and the reloaded message list ends with that user/assistant pair in
order. -/
theorem sendMessage_success_appends_pair (st : ComponentState) (store : Store)
    (sess : SessionRow)
    (hsess : st.currentSession = some sess) (hidle : st.loading = false)
    (hinput : ¬ jsTrim st.input = "") (hwf : store.wf) :
    (sendMessage noFail st store).store.messages =
        { id := store.nextId + 1, session_id := sess.id, role := Role.assistant,
          content := generateMedicalResponse (jsTrim st.input), created_at := store.now + 1 }
        :: { id := store.nextId, session_id := sess.id, role := Role.user,
             content := jsTrim st.input, created_at := store.now }
        :: store.messages
      ∧ (sendMessage noFail st store).store.sessions =
          store.sessions.map
            (fun s => if s.id == sess.id then { s with updated_at := store.now + 2 } else s)
      ∧ (sendMessage noFail st store).state.loading = false
      ∧ (sendMessage noFail st store).state.input = ""
      ∧ (sendMessage noFail st store).state.messages =
          store.listMessages sess.id ++
            [{ id := store.nextId, session_id := sess.id, role := Role.user,
               content := jsTrim st.input, created_at := store.now },
             { id := store.nextId + 1, session_id := sess.id, role := Role.assistant,
               content := generateMedicalResponse (jsTrim st.input),
               created_at := store.now + 1 }] := by
  rw [sendMessage_success_red st store sess hsess hidle hinput]
  refine ⟨rfl, rfl, rfl, rfl, ?_⟩
  exact listMessages_after_pair store sess (jsTrim st.input)
    (generateMedicalResponse (jsTrim st.input)) hwf

/-- Witness for C3 at the sample state and store: the hypotheses hold
there, and the reloaded list ends with the concrete user/assistant
pair. -/
theorem sendMessage_success_appends_pair_witness :
    sampleState.currentSession = some sampleSession ∧
      sampleState.loading = false ∧
      ¬ jsTrim sampleState.input = "" ∧
      sampleStore.wf ∧
      (sendMessage noFail sampleState sampleStore).state.messages =
        Store.listMessages sampleStore sampleSession.id ++
          [{ id := sampleStore.nextId, session_id := sampleSession.id, role := Role.user,
             content := jsTrim sampleState.input, created_at := sampleStore.now },
           { id := sampleStore.nextId + 1, session_id := sampleSession.id,
             role := Role.assistant,
             content := generateMedicalResponse (jsTrim sampleState.input),
             created_at := sampleStore.now + 1 }] :=
  ⟨rfl, rfl, by decide, by decide,
    (sendMessage_success_appends_pair sampleState sampleStore sampleSession rfl rfl
      (by decide) (by decide)).2.2.2.2⟩

/-- The ordered message query after the user-message insert alone: the
previous ordered list with the user row appended. -/
theorem listMessages_after_user (store : Store) (sess : SessionRow)
    (content : String) (hwf : store.wf) :
    Store.listMessages
        { store with
            messages :=
              { id := store.nextId, session_id := sess.id, role := Role.user,
                content := content, created_at := store.now }
              :: store.messages,
            nextId := store.nextId + 1,
            now := store.now + 1 } sess.id =
      store.listMessages sess.id ++
        [{ id := store.nextId, session_id := sess.id, role := Role.user,
           content := content, created_at := store.now }] := by
  unfold Store.listMessages
  exact sortMessages_cons_one store.messages sess.id _ rfl hwf

/-- Fully evaluated form of a `sendMessage` run whose assistant-message
insert is rejected (everything else succeeds). -/
theorem sendMessage_assistantFail_red (st : ComponentState) (store : Store)
    (sess : SessionRow)
    (hsess : st.currentSession = some sess) (hidle : st.loading = false)
    (hinput : ¬ jsTrim st.input = "") :
    sendMessage assistantInsertFail st store =
      ⟨{ st with
          input := "",
          loading := false,
          messages := Store.listMessages
            { store with
                messages :=
                  { id := store.nextId, session_id := sess.id, role := Role.user,
                    content := jsTrim st.input, created_at := store.now }
                  :: store.messages,
                nextId := store.nextId + 1,
                now := store.now + 1 } sess.id },
       { store with
          messages :=
            { id := store.nextId, session_id := sess.id, role := Role.user,
              content := jsTrim st.input, created_at := store.now }
            :: store.messages,
          sessions :=
            store.sessions.map
              (fun s => if s.id == sess.id then { s with updated_at := store.now + 1 } else s),
          nextId := store.nextId + 1,
          now := store.now + 2 },
       [StoreCall.insertMessageCall sess.id Role.user (jsTrim st.input),
        StoreCall.listMessagesCall sess.id,
        StoreCall.insertMessageCall sess.id Role.assistant
          (generateMedicalResponse (jsTrim st.input)),
        StoreCall.listMessagesCall sess.id,
        StoreCall.touchSessionCall sess.id],
       [LogEntry.saveAssistantMessageFailed]⟩ := by
  unfold sendMessage
  rw [if_neg hinput, hsess]
  simp [hidle, assistantInsertFail, noFail, Store.insertMessage, loadMessages,
    Store.touchSession]

/-- Fully evaluated form of a `sendMessage` run whose user-message
insert is rejected: the flow stops after the failed insert. -/
theorem sendMessage_userFail_red (fs : FailSpec) (st : ComponentState) (store : Store)
    (sess : SessionRow)
    (hfs : fs.failUserInsert = true)
    (hsess : st.currentSession = some sess) (hidle : st.loading = false)
    (hinput : ¬ jsTrim st.input = "") :
    sendMessage fs st store =
      ⟨{ st with
          input := "",
          loading := false },
       store,
       [StoreCall.insertMessageCall sess.id Role.user (jsTrim st.input)],
       [LogEntry.saveUserMessageFailed]⟩ := by
  unfold sendMessage
  rw [if_neg hinput, hsess]
  simp [hidle, hfs]

/-- Fully evaluated form of a `sendMessage` run whose final session
touch is rejected (both inserts and reloads succeed). -/
theorem sendMessage_touchFail_red (st : ComponentState) (store : Store)
    (sess : SessionRow)
    (hsess : st.currentSession = some sess) (hidle : st.loading = false)
    (hinput : ¬ jsTrim st.input = "") :
    sendMessage touchFail st store =
      ⟨{ st with
          input := "",
          loading := false,
          messages := Store.listMessages
            { store with
                messages :=
                  { id := store.nextId + 1, session_id := sess.id, role := Role.assistant,
                    content := generateMedicalResponse (jsTrim st.input),
                    created_at := store.now + 1 }
                  :: { id := store.nextId, session_id := sess.id, role := Role.user,
                       content := jsTrim st.input, created_at := store.now }
                  :: store.messages,
                nextId := store.nextId + 2,
                now := store.now + 2 } sess.id },
       { store with
          messages :=
            { id := store.nextId + 1, session_id := sess.id, role := Role.assistant,
              content := generateMedicalResponse (jsTrim st.input),
              created_at := store.now + 1 }
            :: { id := store.nextId, session_id := sess.id, role := Role.user,
                 content := jsTrim st.input, created_at := store.now }
            :: store.messages,
          nextId := store.nextId + 2,
          now := store.now + 2 },
       [StoreCall.insertMessageCall sess.id Role.user (jsTrim st.input),
        StoreCall.listMessagesCall sess.id,
        StoreCall.insertMessageCall sess.id Role.assistant
          (generateMedicalResponse (jsTrim st.input)),
        StoreCall.listMessagesCall sess.id,
        StoreCall.touchSessionCall sess.id],
       []⟩ := by
  unfold sendMessage
  rw [if_neg hinput, hsess]
  simp [hidle, touchFail, noFail, Store.insertMessage, loadMessages]

/-- C4: when the store rejects the assistant insert after a successful
user insert, the user row stays in the store (no rollback) and is the
last entry of the reloaded list, no assistant row of this turn is
stored, the failure is only logged (the run is a total function, so no
exception reaches the caller), the session is still touched, and the
flow returns to idle. -/
theorem sendMessage_assistantFail_partial_write (st : ComponentState) (store : Store)
    (sess : SessionRow)
    (hsess : st.currentSession = some sess) (hidle : st.loading = false)
    (hinput : ¬ jsTrim st.input = "") (hwf : store.wf) :
    (sendMessage assistantInsertFail st store).store.messages =
        { id := store.nextId, session_id := sess.id, role := Role.user,
          content := jsTrim st.input, created_at := store.now }
        :: store.messages
      ∧ (sendMessage assistantInsertFail st store).state.messages =
          store.listMessages sess.id ++
            [{ id := store.nextId, session_id := sess.id, role := Role.user,
               content := jsTrim st.input, created_at := store.now }]
      ∧ (sendMessage assistantInsertFail st store).store.sessions =
          store.sessions.map
            (fun s => if s.id == sess.id then { s with updated_at := store.now + 1 } else s)
      ∧ (sendMessage assistantInsertFail st store).state.loading = false
      ∧ (sendMessage assistantInsertFail st store).log =
          [LogEntry.saveAssistantMessageFailed] := by
  rw [sendMessage_assistantFail_red st store sess hsess hidle hinput]
  refine ⟨rfl, ?_, rfl, rfl, rfl⟩
  exact listMessages_after_user store sess (jsTrim st.input) hwf

/-- Witness for C4 at the sample state and store. -/
theorem sendMessage_assistantFail_partial_write_witness :
    sampleState.currentSession = some sampleSession ∧
      sampleState.loading = false ∧
      ¬ jsTrim sampleState.input = "" ∧
      sampleStore.wf ∧
      (sendMessage assistantInsertFail sampleState sampleStore).state.messages =
        Store.listMessages sampleStore sampleSession.id ++
          [{ id := sampleStore.nextId, session_id := sampleSession.id, role := Role.user,
             content := jsTrim sampleState.input, created_at := sampleStore.now }] :=
  ⟨rfl, rfl, by decide, by decide,
    (sendMessage_assistantFail_partial_write sampleState sampleStore sampleSession rfl rfl
      (by decide) (by decide)).2.1⟩

/-- C5: when the trimmed input is blank, or no session is selected, or a
send is already in flight, `sendMessage` leaves the view state and the
store untouched and attempts no store call. -/
theorem sendMessage_guard_noop (fs : FailSpec) (st : ComponentState) (store : Store)
    (h : jsTrim st.input = "" ∨ st.currentSession = none ∨ st.loading = true) :
    sendMessage fs st store = ⟨st, store, [], []⟩ := by
  unfold sendMessage
  rcases h with h | h | h
  · rw [if_pos h]
  · rw [h]
    simp
  · cases hc : st.currentSession <;> simp [h, hc]

/-- Witness for C5 at a busy sample state (a send already in flight). -/
theorem sendMessage_guard_noop_witness :
    sendMessage noFail { sampleState with loading := true } sampleStore =
      ⟨{ sampleState with loading := true }, sampleStore, [], []⟩ :=
  sendMessage_guard_noop noFail { sampleState with loading := true } sampleStore
    (Or.inr (Or.inr rfl))

/-- C9: when the store rejects the user-message insert, the run attempts
exactly that one store call (no reload, no assistant insert, no touch),
leaves the store untouched, logs the failure, and ends idle with the
message list unchanged and the input cleared. -/
theorem sendMessage_userFail_stops (fs : FailSpec) (st : ComponentState) (store : Store)
    (sess : SessionRow)
    (hfs : fs.failUserInsert = true)
    (hsess : st.currentSession = some sess) (hidle : st.loading = false)
    (hinput : ¬ jsTrim st.input = "") :
    (sendMessage fs st store).store = store
      ∧ (sendMessage fs st store).state =
          { st with input := "", loading := false }
      ∧ (sendMessage fs st store).trace =
          [StoreCall.insertMessageCall sess.id Role.user (jsTrim st.input)]
      ∧ (sendMessage fs st store).log = [LogEntry.saveUserMessageFailed] := by
  rw [sendMessage_userFail_red fs st store sess hfs hsess hidle hinput]
  exact ⟨rfl, rfl, rfl, rfl⟩

/-- Witness for C9 at the sample state and store. -/
theorem sendMessage_userFail_stops_witness :
    userInsertFail.failUserInsert = true ∧
      sampleState.currentSession = some sampleSession ∧
      ¬ jsTrim sampleState.input = "" ∧
      (sendMessage userInsertFail sampleState sampleStore).store = sampleStore ∧
      (sendMessage userInsertFail sampleState sampleStore).state =
        { sampleState with input := "", loading := false } :=
  ⟨rfl, rfl, by decide,
    (sendMessage_userFail_stops userInsertFail sampleState sampleStore sampleSession rfl rfl
      rfl (by decide)).1,
    (sendMessage_userFail_stops userInsertFail sampleState sampleStore sampleSession rfl rfl
      rfl (by decide)).2.1⟩

/-! ## Session-list ordering scenario (spec §8) -/

/-- A store with no rows and clock 1. -/
def emptyStore : Store :=
  { sessions := [], messages := [], nextId := 0, now := 1 }

/-- Store after creating session A for user 0. -/
def storeAfterA : Store :=
  (emptyStore.insertSession 0).2

/-- Session A, created first. -/
def sessionA : SessionRow :=
  (emptyStore.insertSession 0).1

/-- Store after additionally creating session B for user 0. -/
def storeAfterB : Store :=
  (storeAfterA.insertSession 0).2

/-- Session B, created second. -/
def sessionB : SessionRow :=
  (storeAfterA.insertSession 0).1

/-- Store after touching session A last. -/
def storeAfterTouchA : Store :=
  storeAfterB.touchSession sessionA.id

/-- C6: `listSessions` returns only the requesting user's sessions, in
`updated_at`-descending order, the empty list (not an error) when the
user owns none, and in the create-A, create-B, touch-A scenario the
order is [A, B]. -/
theorem listSessions_ordering (store : Store) (uid : Nat) :
    List.Sorted sessionMoreRecent (store.listSessions uid)
      ∧ (∀ s ∈ store.listSessions uid, s.user_id = uid)
      ∧ ((∀ s ∈ store.sessions, s.user_id ≠ uid) → store.listSessions uid = [])
      ∧ storeAfterTouchA.listSessions 0 =
          [{ id := 0, user_id := 0, title := "New Chat", created_at := 1, updated_at := 3 },
           { id := 1, user_id := 0, title := "New Chat", created_at := 2, updated_at := 2 }] := by
  refine ⟨List.sorted_insertionSort sessionMoreRecent _, ?_, ?_, by decide⟩
  · intro s hs
    have hmem :=
      List.mem_filter.1 ((List.mem_insertionSort sessionMoreRecent).1 hs)
    simpa using hmem.2
  · intro h
    unfold Store.listSessions
    rw [List.filter_eq_nil_iff.2 (fun s hs => by simpa using h s hs)]
    rfl

/-- Witness for C6: for a user owning no sessions in the sample store,
the query yields the empty list rather than an error. -/
theorem listSessions_ordering_witness :
    Store.listSessions sampleStore 7 = [] :=
  (listSessions_ordering sampleStore 7).2.2.1 (by decide)

/-- C7: `listMessages` is a pure read — two successive calls with no
intervening write return identical sequences and leave the store
unchanged — each result is ascending by creation time, and a session
with no messages yields the empty sequence. -/
theorem listMessages_idempotent_ordered (store : Store) (sid : Nat) :
    (Store.listMessagesOp (Store.listMessagesOp store sid).2 sid).1 =
        (Store.listMessagesOp store sid).1
      ∧ (Store.listMessagesOp store sid).2 = store
      ∧ List.Sorted msgEarlier (Store.listMessagesOp store sid).1
      ∧ ((∀ m ∈ store.messages, m.session_id ≠ sid) →
          (Store.listMessagesOp store sid).1 = []) := by
  refine ⟨rfl, rfl, List.sorted_insertionSort msgEarlier _, fun h => ?_⟩
  unfold Store.listMessagesOp Store.listMessages
  rw [List.filter_eq_nil_iff.2 (fun m hm => by simpa using h m hm)]
  rfl

/-- Witness for C7: the sample store has no messages at all, so session
5 yields the empty sequence. -/
theorem listMessages_idempotent_ordered_witness :
    (Store.listMessagesOp sampleStore 5).1 = [] :=
  (listMessages_idempotent_ordered sampleStore 5).2.2.2 (by decide)

/-- C10: when the store rejects the call, `loadSessions`,
`loadMessages` and `createNewSession` each log and return with every
piece of in-memory view state (and, for the insert, the store)
unchanged. -/
theorem load_create_error_paths_preserve_state (st : ComponentState) (store : Store)
    (uid sid : Nat) :
    loadSessions true uid st store = (st, [LogEntry.loadSessionsFailed])
      ∧ loadMessages true sid st store = (st, [LogEntry.loadMessagesFailed])
      ∧ createNewSession true uid st store = (st, store, [LogEntry.createSessionFailed]) :=
  ⟨rfl, rfl, rfl⟩

/-- C8 counterexample: a complete run in which the session touch is
rejected attempts the touch (last trace entry), still finishes idle —
yet its log is empty: the touch failure is not logged, unlike every
other failure in the component. -/
theorem touch_failure_not_logged :
    (sendMessage touchFail sampleState sampleStore).log = []
      ∧ (sendMessage touchFail sampleState sampleStore).state.loading = false
      ∧ (sendMessage touchFail sampleState sampleStore).trace =
          [StoreCall.insertMessageCall sampleSession.id Role.user (jsTrim sampleState.input),
           StoreCall.listMessagesCall sampleSession.id,
           StoreCall.insertMessageCall sampleSession.id Role.assistant
             (generateMedicalResponse (jsTrim sampleState.input)),
           StoreCall.listMessagesCall sampleSession.id,
           StoreCall.touchSessionCall sampleSession.id]
      ∧ (sendMessage touchFail sampleState sampleStore).store.sessions =
          sampleStore.sessions := by
  rw [sendMessage_touchFail_red sampleState sampleStore sampleSession rfl rfl (by decide)]
  exact ⟨rfl, rfl, rfl, rfl⟩

/-- C8 (amended): a successful `touchSession` sets the row's
`updated_at` to the store's current time, and the call is best-effort —
a rejected touch neither aborts the send flow (it still returns to
idle) nor leaves any trace in the log (the result is discarded without
a `console.error`). -/
theorem touchSession_best_effort_unlogged (st : ComponentState) (store : Store)
    (sess : SessionRow)
    (hsess : st.currentSession = some sess) (hidle : st.loading = false)
    (hinput : ¬ jsTrim st.input = "") :
    (∀ (s : Store) (sid : Nat),
        (Store.touchSession s sid).sessions =
          s.sessions.map
            (fun r => if r.id == sid then { r with updated_at := s.now } else r))
      ∧ (sendMessage touchFail st store).state.loading = false
      ∧ (sendMessage touchFail st store).store.sessions = store.sessions
      ∧ (sendMessage touchFail st store).log = [] := by
  rw [sendMessage_touchFail_red st store sess hsess hidle hinput]
  exact ⟨fun s sid => rfl, rfl, rfl, rfl⟩

/-- Witness for the amended C8 at the sample state and store. -/
theorem touchSession_best_effort_unlogged_witness :
    sampleState.currentSession = some sampleSession ∧
      ¬ jsTrim sampleState.input = "" ∧
      (sendMessage touchFail sampleState sampleStore).state.loading = false ∧
      (sendMessage touchFail sampleState sampleStore).log = [] :=
  ⟨rfl, by decide,
    (touchSession_best_effort_unlogged sampleState sampleStore sampleSession rfl rfl
      (by decide)).2.1,
    (touchSession_best_effort_unlogged sampleState sampleStore sampleSession rfl rfl
      (by decide)).2.2.2⟩
